import Mathlib

/-!
Shallow embedding of the `fast-asd` wrapper (src/main.py and
src/talknet/run_talknet.py) and verification of its specification.

Numbers that the Python code treats as floats (coordinates, scores,
timestamps) are modelled as rationals; frame numbers and track ids as
integers; the filesystem as the list of paths that currently exist;
the opaque external inference entry point (`demoTalkNet.setup`/`main`)
as an environment function returning either results or an error.
-/

set_option autoImplicit false

/-- A raw per-face record as produced by the external TalkNet pipeline:
the dict with keys `track_id`, `x1`, `y1`, `x2`, `y2`, `speaking`,
`raw_score` read by `format_results_as_json`. -/
structure RawFace where
  track_id : Int
  x1 : ℚ
  y1 : ℚ
  x2 : ℚ
  y2 : ℚ
  speaking : Bool
  raw_score : ℚ
  deriving Repr, DecidableEq

/-- A raw per-frame record: the dict with keys `frame_number` and `faces`. -/
structure RawFrame where
  frame_number : Int
  faces : List RawFace
  deriving Repr, DecidableEq

/-- The `bounding_box` object of the output JSON schema. -/
structure BoundingBox where
  x1 : ℚ
  y1 : ℚ
  x2 : ℚ
  y2 : ℚ
  width : ℚ
  height : ℚ
  deriving Repr, DecidableEq

/-- The `speaking` object of the output JSON schema. -/
structure SpeakingInfo where
  is_speaking : Bool
  confidence_score : ℚ
  threshold : ℚ
  deriving Repr, DecidableEq

/-- A face entry of the output JSON schema. -/
structure FaceInfo where
  track_id : Int
  bounding_box : BoundingBox
  speaking : SpeakingInfo
  deriving Repr, DecidableEq

/-- A frame entry of the output JSON schema. -/
structure FrameInfo where
  frame_number : Int
  timestamp : ℚ
  faces : List FaceInfo
  deriving Repr, DecidableEq

/-- The `video_info` object of the output JSON schema. -/
structure VideoInfo where
  path : String
  start_time : ℚ
  end_time : Option ℚ
  total_frames : Nat
  deriving Repr, DecidableEq

/-- The top-level output JSON object. -/
structure JsonOutput where
  video_info : VideoInfo
  frames : List FrameInfo
  deriving Repr, DecidableEq

namespace Main

/-- The body of the inner `for face in frame_data["faces"]` loop of
`format_results_as_json` in `src/main.py` (lines 76-93). -/
def format_face (face : RawFace) : FaceInfo :=
  { track_id := face.track_id
    bounding_box :=
      { x1 := face.x1
        y1 := face.y1
        x2 := face.x2
        y2 := face.y2
        width := face.x2 - face.x1
        height := face.y2 - face.y1 }
    speaking :=
      { is_speaking := face.speaking
        confidence_score := face.raw_score
        threshold := 0 } }

/-- The body of the outer `for frame_data in results` loop of
`format_results_as_json` in `src/main.py` (lines 69-95). -/
def format_frame (frame_data : RawFrame) : FrameInfo :=
  { frame_number := frame_data.frame_number
    timestamp := (frame_data.frame_number : ℚ) / 25
    faces := frame_data.faces.map format_face }

/-- `format_results_as_json` from `src/main.py` (lines 57-97). -/
def format_results_as_json (results : List RawFrame) (video_path : String)
    (start_time : ℚ) (end_time : Option ℚ) : JsonOutput :=
  { video_info :=
      { path := video_path
        start_time := start_time
        end_time := end_time
        total_frames := results.length }
    frames := results.map format_frame }

end Main

namespace RunTalknet

/-- The body of the inner `for face in frame_data["faces"]` loop of
`format_results_as_json` in `src/talknet/run_talknet.py` (lines 78-95). -/
def format_face (face : RawFace) : FaceInfo :=
  { track_id := face.track_id
    bounding_box :=
      { x1 := face.x1
        y1 := face.y1
        x2 := face.x2
        y2 := face.y2
        width := face.x2 - face.x1
        height := face.y2 - face.y1 }
    speaking :=
      { is_speaking := face.speaking
        confidence_score := face.raw_score
        threshold := 0 } }

/-- The body of the outer `for frame_data in results` loop of
`format_results_as_json` in `src/talknet/run_talknet.py` (lines 71-97). -/
def format_frame (frame_data : RawFrame) : FrameInfo :=
  { frame_number := frame_data.frame_number
    timestamp := (frame_data.frame_number : ℚ) / 25
    faces := frame_data.faces.map format_face }

/-- `format_results_as_json` from `src/talknet/run_talknet.py` (lines 57-99). -/
def format_results_as_json (results : List RawFrame) (video_path : String)
    (start_time : ℚ) (end_time : Option ℚ) : JsonOutput :=
  { video_info :=
      { path := video_path
        start_time := start_time
        end_time := end_time
        total_frames := results.length }
    frames := results.map format_frame }

end RunTalknet

/-! ### Video resolver and downloader (src/main.py lines 23-54)

The filesystem is the list of paths that currently exist on disk
(`os.path.exists p` is `fs.contains p`; `os.unlink p` removes `p`).
`urllib.request.urlretrieve` is opaque: its outcome — success, failure
after partially writing the output file, or failure without writing —
is supplied by the environment, as is the fresh name chosen by
`tempfile.NamedTemporaryFile` (which creates the file on disk). -/

/-- Python's `str.startswith` for a single prefix, over the characters. -/
def pyStartsWith (s p : String) : Bool :=
  go s.data p.data
where
  go : List Char → List Char → Bool
    | _, [] => true
    | [], _ :: _ => false
    | c :: cs, d :: ds => c == d && go cs ds

/-- One possible outcome of a single `urllib.request.urlretrieve` call. -/
inductive RetrieveOutcome where
  | success
  | failure (partialWrite : Bool) (msg : String)
  deriving Repr, DecidableEq

/-- Environment for `download_video_from_url`: the fresh temp-file name
chosen by `tempfile.NamedTemporaryFile(suffix='.mp4', delete=False)` and
the outcome of the `urlretrieve` call. -/
structure DLEnv where
  tempName : String
  outcome : RetrieveOutcome
  deriving Repr, DecidableEq

/-- Adds a path to the filesystem (creating a file that may already exist
leaves the set of existing paths with one copy of it). -/
def createFile (p : String) (fs : List String) : List String :=
  if fs.contains p then fs else p :: fs

/-- `os.unlink p`: removes path `p` from the filesystem. -/
def unlinkFile (p : String) (fs : List String) : List String :=
  fs.filter (fun q => q ≠ p)

/-- Result of `download_video_from_url`: the return value or raised
exception message, the filesystem afterwards, and how many times
`urlretrieve` was invoked during the call. -/
structure DLResult where
  result : Except String String
  fs : List String
  attempts : Nat
  deriving Repr

/-- `download_video_from_url` from `src/main.py` (lines 23-39).
With `output_path = None` it creates a named temporary file (which then
exists on disk), calls `urlretrieve(url, output_path)` once, returns
`output_path` on success, and on failure unlinks `output_path` if it
exists and raises `Exception("Failed to download video: ...")`. -/
def download_video_from_url (env : DLEnv) (fs : List String) (url : String)
    (output_path? : Option String) : DLResult :=
  let step : String × List String :=
    match output_path? with
    | none => (env.tempName, createFile env.tempName fs)
    | some p => (p, fs)
  let output_path := step.1
  let fs1 := step.2
  match env.outcome with
  | .success =>
      { result := .ok output_path
        fs := createFile output_path fs1
        attempts := 1 }
  | .failure partialWrite msg =>
      let fs2 := if partialWrite then createFile output_path fs1 else fs1
      let fs3 := if fs2.contains output_path then unlinkFile output_path fs2 else fs2
      { result := .error ("Failed to download video: " ++ msg)
        fs := fs3
        attempts := 1 }

/-- `is_url` from `src/main.py` (lines 42-44):
`path.startswith(('http://', 'https://', 'ftp://'))`. -/
def is_url (path : String) : Bool :=
  pyStartsWith path "http://" || pyStartsWith path "https://" || pyStartsWith path "ftp://"

/-- A Python exception as observed by the callers: either a
`FileNotFoundError` or a generic `Exception`, with its message. -/
inductive PyError where
  | fileNotFound (msg : String)
  | exception (msg : String)
  deriving Repr, DecidableEq

/-- The message carried by a Python exception (`str(e)`). -/
def PyError.msg : PyError → String
  | .fileNotFound m => m
  | .exception m => m

/-- `get_video_path_or_download` from `src/main.py` (lines 47-54):
URL inputs are downloaded (cleanup flag `True`); non-URL inputs must
exist on disk (else `FileNotFoundError`) and are returned unchanged with
cleanup flag `False`. Returns the value or exception together with the
filesystem afterwards. -/
def get_video_path_or_download (env : DLEnv) (fs : List String)
    (video_input : String) : Except PyError (String × Bool) × List String :=
  if is_url video_input then
    let r := download_video_from_url env fs video_input none
    match r.result with
    | .ok p => (.ok (p, true), r.fs)
    | .error m => (.error (.exception m), r.fs)
  else
    if fs.contains video_input then
      (.ok (video_input, false), fs)
    else
      (.error (.fileNotFound ("Video file not found: " ++ video_input)), fs)

/-! ### Execution drivers (src/main.py lines 100-205)

`demoTalkNet.setup()`/`main(...)` is an opaque external component: the
environment supplies, per `(video_path, start_seconds, end_seconds,
return_visualization)`, either the raw results list or a raised
exception's message. The modelled filesystem is not touched by the
opaque inference call; the `finally` block is the only cleanup. -/

/-- Environment wrapping the opaque `demoTalkNet` entry point. -/
structure InferEnv where
  inference : String → ℚ → Option ℚ → Bool → Except String (List RawFrame)

/-- `run_local` from `src/main.py` (lines 163-205): resolve (download if
URL), run inference inside `try`, format with the original `video_input`,
and in `finally` unlink the resolved path when it was downloaded and
still exists. Returns the value or exception with the final filesystem. -/
def run_local (env : DLEnv) (ienv : InferEnv) (fs : List String)
    (video_input : String) (start_time : ℚ) (end_time : Option ℚ) :
    Except PyError JsonOutput × List String :=
  match get_video_path_or_download env fs video_input with
  | (.error e, fs1) => (.error e, fs1)
  | (.ok (video_path, needs_cleanup), fs1) =>
      let result : Except PyError JsonOutput :=
        match ienv.inference video_path start_time end_time false with
        | .ok results => .ok (Main.format_results_as_json results video_input start_time end_time)
        | .error m => .error (.exception m)
      let fs2 := if needs_cleanup && fs1.contains video_path then unlinkFile video_path fs1 else fs1
      (result, fs2)

/-- `process_video_url` from `src/main.py` (lines 100-159): the Modal
function body. Resolves the URL, checks that a talknet directory is
available (else `RuntimeError`, still inside `try`), runs inference,
formats with the original `video_url`, and in `finally` unlinks the
downloaded file when needed and still existing. `talknetFound` says
whether a local or cloud talknet directory exists. -/
def process_video_url (env : DLEnv) (ienv : InferEnv) (talknetFound : Bool)
    (fs : List String) (video_url : String) (start_time : ℚ) (end_time : Option ℚ) :
    Except PyError JsonOutput × List String :=
  match get_video_path_or_download env fs video_url with
  | (.error e, fs1) => (.error e, fs1)
  | (.ok (temp_video_path, needs_cleanup), fs1) =>
      let result : Except PyError JsonOutput :=
        if talknetFound then
          match ienv.inference temp_video_path start_time end_time false with
          | .ok results => .ok (Main.format_results_as_json results video_url start_time end_time)
          | .error m => .error (.exception m)
        else
          .error (.exception "TalkNet code not found. Ensure talknet directory is available.")
      let fs2 := if needs_cleanup && fs1.contains temp_video_path then unlinkFile temp_video_path fs1 else fs1
      (result, fs2)

/-! ### CLI entry points -/

/-- Observable behaviour of a CLI run: the lines printed to stdout
(`print` writes to stdout), the lines printed to stderr, and the exit
code (`exit(0)` implicitly at the end of the script). -/
structure CliResult where
  stdoutLines : List String
  stderrLines : List String
  exitCode : Nat
  deriving Repr, DecidableEq

/-- Parsed arguments of `src/main.py`'s argparse CLI. -/
structure MainArgs where
  video_input : String
  start : ℚ
  end_ : Option ℚ
  output : Option String
  local_ : Bool
  deriving Repr, DecidableEq

/-- The `__main__` block of `src/main.py` (lines 239-268), after argparse:
validate the input (file or URL), run locally or on Modal, then save or
print the results; any exception from processing is caught, reported via
`print` (stdout) and turned into `exit(1)`. Output-file writing is
reported as its stdout message. -/
def main_cli (env : DLEnv) (ienv : InferEnv) (talknetFound : Bool)
    (fs : List String) (args : MainArgs) : CliResult :=
  if !is_url args.video_input && !fs.contains args.video_input then
    { stdoutLines := ["Error: Video file not found: " ++ args.video_input]
      stderrLines := []
      exitCode := 1 }
  else
    let pre : List String :=
      if args.local_ then []
      else ["Processing on Modal cloud...", "Processing video: " ++ args.video_input]
    let run :=
      if args.local_ then run_local env ienv fs args.video_input args.start args.end_
      else process_video_url env ienv talknetFound fs args.video_input args.start args.end_
    match run.1 with
    | .ok _ =>
        let post : List String :=
          match args.output with
          | some f => ["Results saved to: " ++ f]
          | none => ["<json results>"]
        { stdoutLines := pre ++ post
          stderrLines := []
          exitCode := 0 }
    | .error e =>
        let hint : List String :=
          if !args.local_ then ["", "Try running locally: python main.py --local your_video.mp4"]
          else []
        { stdoutLines := pre ++ ["Error processing video: " ++ e.msg] ++ hint
          stderrLines := []
          exitCode := 1 }

/-! ### src/talknet/run_talknet.py -/

/-- Result of `run_talknet`: either the JSON object (when `output_json`)
or the raw results list. -/
inductive RTOutput where
  | json (j : JsonOutput)
  | raw (results : List RawFrame)

/-- `run_talknet` from `src/talknet/run_talknet.py` (lines 16-55):
checks file existence (`FileNotFoundError` otherwise), runs the opaque
inference, and formats as JSON only when `output_json` is set. -/
def run_talknet (ienv : InferEnv) (fs : List String) (video_path : String)
    (start_time : ℚ) (end_time : Option ℚ) (return_viz output_json : Bool) :
    Except PyError RTOutput :=
  if !fs.contains video_path then
    .error (.fileNotFound ("Video file not found: " ++ video_path))
  else
    match ienv.inference video_path start_time end_time return_viz with
    | .error m => .error (.exception m)
    | .ok results =>
        if output_json then
          .ok (.json (RunTalknet.format_results_as_json results video_path start_time end_time))
        else
          .ok (.raw results)

/-- Python `str.lower`, over the characters. -/
def pyLower (s : String) : String :=
  ⟨s.data.map Char.toLower⟩

/-- The guard `arg.replace('.', '').replace('-', '').isdigit()` of the
argument loop: after removing every `.` and `-`, the string is nonempty
and all digits. -/
def pyDigitGuard (arg : String) : Bool :=
  let stripped := arg.data.filter (fun c => c ≠ '.' && c ≠ '-')
  !stripped.isEmpty && stripped.all Char.isDigit

/-- Value of a digit string, most significant first. -/
def digitsVal (cs : List Char) : Nat :=
  cs.foldl (fun a c => a * 10 + (c.toNat - 48)) 0

/-- Python `float(arg)` on the strings that can reach it here (digits,
`.` and `-` only): an optional leading minus sign, then digits with at
most one decimal point and at least one digit. `none` models the
`ValueError` that `float` raises otherwise. -/
def pyFloat? (s : String) : Option ℚ :=
  let signBody : ℚ × List Char :=
    match s.data with
    | '-' :: rest => (-1, rest)
    | cs => (1, cs)
  let sign := signBody.1
  let body := signBody.2
  let intPart := body.takeWhile (fun c => c ≠ '.')
  let rest := body.dropWhile (fun c => c ≠ '.')
  if !intPart.all Char.isDigit then none
  else
    match rest with
    | [] =>
        if intPart.isEmpty then none
        else some (sign * (digitsVal intPart : ℚ))
    | _ :: frac =>
        if frac.all Char.isDigit && !(intPart.isEmpty && frac.isEmpty) then
          some (sign * ((digitsVal intPart : ℚ) + (digitsVal frac : ℚ) / 10 ^ frac.length))
        else none

/-- Mutable state of the argument loop in `run_talknet.py`'s `__main__`
(lines 110-133). `crashed` records an uncaught `ValueError` from
`float(arg)`. -/
structure RTParseState where
  start_time : ℚ
  end_time : Option ℚ
  return_viz : Bool
  output_json : Bool
  output_file : Option String
  crashed : Bool
  deriving Repr, DecidableEq

/-- Initial state of the argument loop (lines 111-115). -/
def rtInitState : RTParseState :=
  { start_time := 0, end_time := none, return_viz := false,
    output_json := false, output_file := none, crashed := false }

/-- The numeric branch of the loop (lines 128-132): assign to
`start_time` if it is still zero, else to `end_time` if unset. -/
def rtAssignTime (st : RTParseState) (v : ℚ) : RTParseState :=
  if st.start_time = 0 then { st with start_time := v }
  else if st.end_time = none then { st with end_time := some v }
  else st

/-- The full numeric branch (lines 128-132): `float(arg)` is evaluated
only inside a taken assignment branch, i.e. only when `start_time` is
still zero or `end_time` is still unset; a malformed guard-passing token
is silently skipped when neither branch is taken, and raises
`ValueError` (`crashed`) when one is. On a successful parse the
assignment is `rtAssignTime`. -/
def rtNumericArg (st : RTParseState) (arg : String) : RTParseState :=
  if st.start_time = 0 ∨ st.end_time = none then
    match pyFloat? arg with
    | some v => rtAssignTime st v
    | none => { st with crashed := true }
  else st

/-- The argument loop of `run_talknet.py`'s `__main__` (lines 117-133),
over `sys.argv[2:]`. `--output` as the last argument matches no branch
(the `i + 1 < len(sys.argv)` test fails) and the loop ends; a
`ValueError` from `float(arg)` aborts the loop (the exception
propagates). -/
def rtParseLoop : RTParseState → List String → RTParseState
  | st, [] => st
  | st, arg :: rest =>
      if arg = "--json" then rtParseLoop { st with output_json := true } rest
      else if arg = "--output" then
        match rest with
        | next :: rest' => rtParseLoop { st with output_file := some next } rest'
        | [] => st
      else if pyLower arg = "true" then rtParseLoop { st with return_viz := true } rest
      else if pyDigitGuard arg then
        let st' := rtNumericArg st arg
        if st'.crashed then st' else rtParseLoop st' rest
      else rtParseLoop st rest

/-- The `__main__` block of `src/talknet/run_talknet.py` (lines 101-163):
usage message on missing video argument, the argument loop, then
`run_talknet` inside `try`; an exception is reported as
`print(f"Error: {e}")` (stdout) followed by `sys.exit(1)`. A `ValueError`
escaping the argument loop (outside the `try`) is an uncaught traceback
on stderr. Informational success output is abstracted to its first
lines. -/
def run_talknet_cli (ienv : InferEnv) (fs : List String)
    (argv : List String) : CliResult :=
  match argv with
  | [] =>
      { stdoutLines := ["Usage: python run_talknet.py <video_path> [start_time] [end_time] [return_viz] [--json] [--output file.json]"]
        stderrLines := []
        exitCode := 1 }
  | [_] =>
      { stdoutLines := ["Usage: python run_talknet.py <video_path> [start_time] [end_time] [return_viz] [--json] [--output file.json]"]
        stderrLines := []
        exitCode := 1 }
  | _ :: video_path :: rest =>
      let st := rtParseLoop rtInitState rest
      if st.crashed then
        { stdoutLines := [], stderrLines := ["Traceback (most recent call last): ValueError"], exitCode := 1 }
      else
        match run_talknet ienv fs video_path st.start_time st.end_time st.return_viz st.output_json with
        | .error e =>
            { stdoutLines := ["Error: " ++ e.msg], stderrLines := [], exitCode := 1 }
        | .ok (.json _) =>
            let post : List String :=
              match st.output_file with
              | some f => ["JSON results saved to: " ++ f]
              | none => ["<json results>"]
            { stdoutLines := post, stderrLines := [], exitCode := 0 }
        | .ok (.raw results) =>
            { stdoutLines := ["", "Processing complete!",
                "Found " ++ toString results.length ++ " frames with face detections"]
              stderrLines := []
              exitCode := 0 }

/-! ### Helper lemmas about the filesystem model -/

theorem mem_createFile {q p : String} {fs : List String} :
    q ∈ createFile p fs ↔ q = p ∨ q ∈ fs := by
  unfold createFile
  split
  · next h =>
      have hp : p ∈ fs := by simpa using h
      constructor
      · exact Or.inr
      · rintro (rfl | hq) <;> assumption
  · simp [List.mem_cons]

theorem mem_unlinkFile {q p : String} {fs : List String} :
    q ∈ unlinkFile p fs ↔ q ∈ fs ∧ q ≠ p := by
  simp [unlinkFile]

theorem contains_createFile_self (p : String) (fs : List String) :
    (createFile p fs).contains p = true := by
  simpa using mem_createFile.mpr (Or.inl rfl)

theorem not_mem_unlinkFile_self (p : String) (fs : List String) :
    p ∉ unlinkFile p fs := by
  simp [mem_unlinkFile]

/-! ### Claims about the result formatter -/

/-- C2: `format_results_as_json` echoes the path, start and end times in
`video_info`, sets `total_frames` to the length of the raw results, keeps
the frames in the same number and order, and gives each output frame the
raw frame's `frame_number` with `timestamp = frame_number / 25.0`. -/
theorem format_results_video_info_frames (results : List RawFrame)
    (path : String) (st : ℚ) (et : Option ℚ) (i : Nat) (rawFrame : RawFrame)
    (h : results[i]? = some rawFrame) :
    (Main.format_results_as_json results path st et).video_info.path = path ∧
    (Main.format_results_as_json results path st et).video_info.start_time = st ∧
    (Main.format_results_as_json results path st et).video_info.end_time = et ∧
    (Main.format_results_as_json results path st et).video_info.total_frames = results.length ∧
    (Main.format_results_as_json results path st et).frames.length = results.length ∧
    ∃ outFrame,
      (Main.format_results_as_json results path st et).frames[i]? = some outFrame ∧
      outFrame.frame_number = rawFrame.frame_number ∧
      outFrame.timestamp = (rawFrame.frame_number : ℚ) / 25 := by
  refine ⟨rfl, rfl, rfl, rfl, by simp [Main.format_results_as_json], ?_⟩
  refine ⟨Main.format_frame rawFrame, ?_, rfl, rfl⟩
  simp [Main.format_results_as_json, List.getElem?_map, h]

/-- Witness for C2 at the one-frame list `[{frame_number := 7, faces := []}]`. -/
theorem format_results_video_info_frames_witness :
    (([{ frame_number := 7, faces := [] }] : List RawFrame)[0]? =
      some { frame_number := 7, faces := [] }) ∧
    ((Main.format_results_as_json [{ frame_number := 7, faces := [] }] "v.mp4" 0 none).video_info.path = "v.mp4" ∧
     (Main.format_results_as_json [{ frame_number := 7, faces := [] }] "v.mp4" 0 none).video_info.start_time = 0 ∧
     (Main.format_results_as_json [{ frame_number := 7, faces := [] }] "v.mp4" 0 none).video_info.end_time = none ∧
     (Main.format_results_as_json [{ frame_number := 7, faces := [] }] "v.mp4" 0 none).video_info.total_frames = ([{ frame_number := 7, faces := [] }] : List RawFrame).length ∧
     (Main.format_results_as_json [{ frame_number := 7, faces := [] }] "v.mp4" 0 none).frames.length = ([{ frame_number := 7, faces := [] }] : List RawFrame).length ∧
     ∃ outFrame,
       (Main.format_results_as_json [{ frame_number := 7, faces := [] }] "v.mp4" 0 none).frames[0]? = some outFrame ∧
       outFrame.frame_number = (7 : Int) ∧
       outFrame.timestamp = ((7 : Int) : ℚ) / 25) :=
  ⟨rfl, format_results_video_info_frames [{ frame_number := 7, faces := [] }] "v.mp4" 0 none 0
    { frame_number := 7, faces := [] } rfl⟩

/-- C3: each formatted `bounding_box` copies `x1`, `y1`, `x2`, `y2`
unchanged from the raw face and satisfies `width = x2 - x1` and
`height = y2 - y1` exactly. -/
theorem format_results_bounding_box (results : List RawFrame) (path : String)
    (st : ℚ) (et : Option ℚ) (i j : Nat) (rawFrame : RawFrame) (rawFace : RawFace)
    (hi : results[i]? = some rawFrame) (hj : rawFrame.faces[j]? = some rawFace) :
    ∃ outFrame outFace,
      (Main.format_results_as_json results path st et).frames[i]? = some outFrame ∧
      outFrame.faces[j]? = some outFace ∧
      outFace.bounding_box.x1 = rawFace.x1 ∧
      outFace.bounding_box.y1 = rawFace.y1 ∧
      outFace.bounding_box.x2 = rawFace.x2 ∧
      outFace.bounding_box.y2 = rawFace.y2 ∧
      outFace.bounding_box.width = rawFace.x2 - rawFace.x1 ∧
      outFace.bounding_box.height = rawFace.y2 - rawFace.y1 := by
  refine ⟨Main.format_frame rawFrame, Main.format_face rawFace, ?_, ?_,
    rfl, rfl, rfl, rfl, rfl, rfl⟩
  · simp [Main.format_results_as_json, List.getElem?_map, hi]
  · simp [Main.format_frame, List.getElem?_map, hj]

/-- Witness for C3 at a single face with corner coordinates (1, 2, 4, 7). -/
theorem format_results_bounding_box_witness :
    (([{ frame_number := 0,
         faces := [{ track_id := 3, x1 := 1, y1 := 2, x2 := 4, y2 := 7,
                     speaking := true, raw_score := 1 }] }] : List RawFrame)[0]? =
       some { frame_number := 0,
              faces := [{ track_id := 3, x1 := 1, y1 := 2, x2 := 4, y2 := 7,
                          speaking := true, raw_score := 1 }] }) ∧
    (({ frame_number := 0,
        faces := [{ track_id := 3, x1 := 1, y1 := 2, x2 := 4, y2 := 7,
                    speaking := true, raw_score := 1 }] } : RawFrame).faces[0]? =
       some { track_id := 3, x1 := 1, y1 := 2, x2 := 4, y2 := 7,
              speaking := true, raw_score := 1 }) ∧
    (∃ outFrame outFace,
      (Main.format_results_as_json
        [{ frame_number := 0,
           faces := [{ track_id := 3, x1 := 1, y1 := 2, x2 := 4, y2 := 7,
                       speaking := true, raw_score := 1 }] }] "v.mp4" 0 none).frames[0]? = some outFrame ∧
      outFrame.faces[0]? = some outFace ∧
      outFace.bounding_box.x1 = (1 : ℚ) ∧
      outFace.bounding_box.y1 = (2 : ℚ) ∧
      outFace.bounding_box.x2 = (4 : ℚ) ∧
      outFace.bounding_box.y2 = (7 : ℚ) ∧
      outFace.bounding_box.width = (4 : ℚ) - 1 ∧
      outFace.bounding_box.height = (7 : ℚ) - 2) := by
  refine ⟨rfl, rfl, ?_⟩
  exact format_results_bounding_box
    [{ frame_number := 0,
       faces := [{ track_id := 3, x1 := 1, y1 := 2, x2 := 4, y2 := 7,
                   speaking := true, raw_score := 1 }] }] "v.mp4" 0 none 0 0
    { frame_number := 0,
      faces := [{ track_id := 3, x1 := 1, y1 := 2, x2 := 4, y2 := 7,
                  speaking := true, raw_score := 1 }] }
    { track_id := 3, x1 := 1, y1 := 2, x2 := 4, y2 := 7,
      speaking := true, raw_score := 1 } rfl rfl

/-- C9: each formatted `speaking` object copies the raw `speaking` flag
verbatim into `is_speaking`, copies `raw_score` into `confidence_score`,
and sets `threshold` to the constant `0.0`; the verdict is never
recomputed, so there is a face entry whose `is_speaking` disagrees with
`confidence_score > threshold`. -/
theorem format_results_speaking_fields (results : List RawFrame) (path : String)
    (st : ℚ) (et : Option ℚ) (i j : Nat) (rawFrame : RawFrame) (rawFace : RawFace)
    (hi : results[i]? = some rawFrame) (hj : rawFrame.faces[j]? = some rawFace) :
    (∃ outFrame outFace,
      (Main.format_results_as_json results path st et).frames[i]? = some outFrame ∧
      outFrame.faces[j]? = some outFace ∧
      outFace.speaking.is_speaking = rawFace.speaking ∧
      outFace.speaking.confidence_score = rawFace.raw_score ∧
      outFace.speaking.threshold = 0) ∧
    (∃ f : RawFace,
      (Main.format_face f).speaking.is_speaking ≠
        decide ((Main.format_face f).speaking.confidence_score >
          (Main.format_face f).speaking.threshold)) := by
  constructor
  · refine ⟨Main.format_frame rawFrame, Main.format_face rawFace, ?_, ?_, rfl, rfl, rfl⟩
    · simp [Main.format_results_as_json, List.getElem?_map, hi]
    · simp [Main.format_frame, List.getElem?_map, hj]
  · refine ⟨{ track_id := 0, x1 := 0, y1 := 0, x2 := 0, y2 := 0,
              speaking := false, raw_score := 1 }, ?_⟩
    simp [Main.format_face]

/-- Witness for C9 at a face whose model verdict is `True` with raw score `1/2`. -/
theorem format_results_speaking_fields_witness :
    (([{ frame_number := 0,
         faces := [{ track_id := 0, x1 := 0, y1 := 0, x2 := 0, y2 := 0,
                     speaking := true, raw_score := 1/2 }] }] : List RawFrame)[0]? =
       some { frame_number := 0,
              faces := [{ track_id := 0, x1 := 0, y1 := 0, x2 := 0, y2 := 0,
                          speaking := true, raw_score := 1/2 }] }) ∧
    (({ frame_number := 0,
        faces := [{ track_id := 0, x1 := 0, y1 := 0, x2 := 0, y2 := 0,
                    speaking := true, raw_score := 1/2 }] } : RawFrame).faces[0]? =
       some { track_id := 0, x1 := 0, y1 := 0, x2 := 0, y2 := 0,
              speaking := true, raw_score := 1/2 }) ∧
    ((∃ outFrame outFace,
      (Main.format_results_as_json
        [{ frame_number := 0,
           faces := [{ track_id := 0, x1 := 0, y1 := 0, x2 := 0, y2 := 0,
                       speaking := true, raw_score := 1/2 }] }] "v.mp4" 0 none).frames[0]? = some outFrame ∧
      outFrame.faces[0]? = some outFace ∧
      outFace.speaking.is_speaking = true ∧
      outFace.speaking.confidence_score = (1 : ℚ)/2 ∧
      outFace.speaking.threshold = 0) ∧
    (∃ f : RawFace,
      (Main.format_face f).speaking.is_speaking ≠
        decide ((Main.format_face f).speaking.confidence_score >
          (Main.format_face f).speaking.threshold))) := by
  refine ⟨rfl, rfl, ?_⟩
  exact format_results_speaking_fields
    [{ frame_number := 0,
       faces := [{ track_id := 0, x1 := 0, y1 := 0, x2 := 0, y2 := 0,
                   speaking := true, raw_score := 1/2 }] }] "v.mp4" 0 none 0 0
    { frame_number := 0,
      faces := [{ track_id := 0, x1 := 0, y1 := 0, x2 := 0, y2 := 0,
                  speaking := true, raw_score := 1/2 }] }
    { track_id := 0, x1 := 0, y1 := 0, x2 := 0, y2 := 0,
      speaking := true, raw_score := 1/2 } rfl rfl

/-- C1: the local and remote drivers share the same post-processing.
Whenever the resolver and the opaque inference agree (same environment,
same raw results), `run_local` and `process_video_url` both return
exactly `format_results_as_json results input start end`, and the two
copies of `format_results_as_json` — `main.py`'s and `run_talknet.py`'s —
are extensionally equal. -/
theorem drivers_share_postprocessing (env : DLEnv) (ienv : InferEnv)
    (fs fs1 : List String) (input path : String) (st : ℚ) (et : Option ℚ)
    (results : List RawFrame) (b : Bool)
    (hget : get_video_path_or_download env fs input = (.ok (path, b), fs1))
    (hinf : ienv.inference path st et false = .ok results) :
    (run_local env ienv fs input st et).1 =
      .ok (Main.format_results_as_json results input st et) ∧
    (process_video_url env ienv true fs input st et).1 =
      .ok (Main.format_results_as_json results input st et) ∧
    Main.format_results_as_json results input st et =
      RunTalknet.format_results_as_json results input st et := by
  refine ⟨?_, ?_, rfl⟩
  · simp [run_local, hget, hinf]
  · simp [process_video_url, hget, hinf]

/-- Witness for C1: a local file `v.mp4` that exists, inference returning
one empty frame. -/
theorem drivers_share_postprocessing_witness :
    (get_video_path_or_download { tempName := "t.mp4", outcome := .success }
        ["v.mp4"] "v.mp4" = (.ok ("v.mp4", false), ["v.mp4"])) ∧
    (InferEnv.inference ⟨fun _ _ _ _ => .ok [{ frame_number := 0, faces := [] }]⟩
        "v.mp4" 0 none false = .ok [{ frame_number := 0, faces := [] }]) ∧
    ((run_local { tempName := "t.mp4", outcome := .success }
        ⟨fun _ _ _ _ => .ok [{ frame_number := 0, faces := [] }]⟩
        ["v.mp4"] "v.mp4" 0 none).1 =
      .ok (Main.format_results_as_json [{ frame_number := 0, faces := [] }] "v.mp4" 0 none) ∧
     (process_video_url { tempName := "t.mp4", outcome := .success }
        ⟨fun _ _ _ _ => .ok [{ frame_number := 0, faces := [] }]⟩ true
        ["v.mp4"] "v.mp4" 0 none).1 =
      .ok (Main.format_results_as_json [{ frame_number := 0, faces := [] }] "v.mp4" 0 none) ∧
     Main.format_results_as_json [{ frame_number := 0, faces := [] }] "v.mp4" 0 none =
      RunTalknet.format_results_as_json [{ frame_number := 0, faces := [] }] "v.mp4" 0 none) := by
  refine ⟨rfl, rfl, ?_⟩
  exact drivers_share_postprocessing { tempName := "t.mp4", outcome := .success }
    ⟨fun _ _ _ _ => .ok [{ frame_number := 0, faces := [] }]⟩
    ["v.mp4"] ["v.mp4"] "v.mp4" "v.mp4" 0 none
    [{ frame_number := 0, faces := [] }] false rfl rfl

/-- C4: for a non-URL input, `get_video_path_or_download` raises
`FileNotFoundError` exactly when no file exists at that path, and
otherwise returns the input unchanged with cleanup flag `False`; for a
URL input, whenever it returns, the value is the downloaded temporary
file's path paired with cleanup flag `True`. -/
theorem get_video_path_or_download_spec (env : DLEnv) (fs : List String)
    (input : String) :
    (is_url input = false →
      ((fs.contains input = false →
        (get_video_path_or_download env fs input).1 =
          .error (.fileNotFound ("Video file not found: " ++ input))) ∧
       (fs.contains input = true →
        get_video_path_or_download env fs input = (.ok (input, false), fs)))) ∧
    (is_url input = true →
      ∀ p b fs1, get_video_path_or_download env fs input = (.ok (p, b), fs1) →
        b = true ∧ p = env.tempName ∧ p ∈ fs1) := by
  constructor
  · intro hurl
    constructor
    · intro hmem
      have hnot : input ∉ fs := fun hm =>
        absurd (List.elem_eq_true_of_mem hm) (by simp [List.contains] at hmem ⊢; exact hmem)
      rw [get_video_path_or_download]
      simp [hurl, hnot]
    · intro hmem
      rw [get_video_path_or_download]
      simp [hurl, List.mem_of_elem_eq_true hmem]
  · intro hurl p b fs1 hok
    rcases houtcome : env.outcome with _ | ⟨pw, m⟩ <;>
      simp [get_video_path_or_download, hurl, download_video_from_url, houtcome] at hok
    rcases hok with ⟨⟨hp, hb⟩, hfs⟩
    subst hp hb hfs
    exact ⟨rfl, rfl, mem_createFile.mpr (Or.inl rfl)⟩

/-- Witness for C4: the missing local file `missing.mp4`, the present
local file `v.mp4`, and a successful download of an http URL. -/
theorem get_video_path_or_download_spec_witness :
    ((is_url "v.mp4" = false) ∧
     ((["v.mp4"] : List String).contains "missing.mp4" = false) ∧
     ((["v.mp4"] : List String).contains "v.mp4" = true) ∧
     (is_url "http://h/v.mp4" = true)) ∧
    ((get_video_path_or_download { tempName := "t.mp4", outcome := .success }
        ["v.mp4"] "missing.mp4").1 =
      .error (.fileNotFound ("Video file not found: " ++ "missing.mp4"))) ∧
    (get_video_path_or_download { tempName := "t.mp4", outcome := .success }
        ["v.mp4"] "v.mp4" = (.ok ("v.mp4", false), ["v.mp4"])) ∧
    (∀ p b fs1,
      get_video_path_or_download { tempName := "t.mp4", outcome := .success }
        [] "http://h/v.mp4" = (.ok (p, b), fs1) →
      b = true ∧ p = "t.mp4" ∧ p ∈ fs1) := by
  refine ⟨⟨by decide, by decide, by decide, by decide⟩, ?_, ?_, ?_⟩
  · exact ((get_video_path_or_download_spec { tempName := "t.mp4", outcome := .success }
      ["v.mp4"] "missing.mp4").1 (by decide)).1 (by decide)
  · exact ((get_video_path_or_download_spec { tempName := "t.mp4", outcome := .success }
      ["v.mp4"] "v.mp4").1 (by decide)).2 (by decide)
  · exact (get_video_path_or_download_spec { tempName := "t.mp4", outcome := .success }
      [] "http://h/v.mp4").2 (by decide)

/-- C6: `download_video_from_url` calls `urlretrieve` exactly once; on
failure it raises `Exception("Failed to download video: ...")` and
leaves no downloaded file behind (the output path does not exist
afterwards, and no other path's existence changed); on success it
returns the path the video was written to, which then exists. -/
theorem download_video_once_cleanup (env : DLEnv) (fs : List String)
    (url : String) :
    (download_video_from_url env fs url none).attempts = 1 ∧
    (env.outcome = .success →
      (download_video_from_url env fs url none).result = .ok env.tempName ∧
      env.tempName ∈ (download_video_from_url env fs url none).fs) ∧
    (∀ pw m, env.outcome = .failure pw m →
      (download_video_from_url env fs url none).result =
        .error ("Failed to download video: " ++ m) ∧
      env.tempName ∉ (download_video_from_url env fs url none).fs ∧
      ∀ q, q ≠ env.tempName →
        (q ∈ (download_video_from_url env fs url none).fs ↔ q ∈ fs)) := by
  refine ⟨?_, ?_, ?_⟩
  · rcases houtcome : env.outcome with _ | ⟨pw, m⟩ <;>
      simp [download_video_from_url, houtcome]
  · intro houtcome
    constructor
    · simp [download_video_from_url, houtcome]
    · simp only [download_video_from_url, houtcome]
      exact mem_createFile.mpr (Or.inl rfl)
  · intro pw m houtcome
    refine ⟨by simp [download_video_from_url, houtcome], ?_, ?_⟩
    · simp only [download_video_from_url, houtcome]
      split
      · split
        · exact not_mem_unlinkFile_self _ _
        · next h2 h3 =>
            exact absurd (contains_createFile_self _ _) h3
      · split
        · exact not_mem_unlinkFile_self _ _
        · next h2 h3 =>
            exact absurd (contains_createFile_self _ _) h3
    · intro q hq
      simp only [download_video_from_url, houtcome]
      split <;> split <;>
        simp [mem_unlinkFile, mem_createFile, hq]

/-- Witness for C6: a failing download that had partially written the
file, and a successful one, both from an empty filesystem. -/
theorem download_video_once_cleanup_witness :
    ((download_video_from_url { tempName := "t.mp4", outcome := .failure true "timeout" }
        [] "http://h/v.mp4" none).attempts = 1) ∧
    ((download_video_from_url { tempName := "t.mp4", outcome := .failure true "timeout" }
        [] "http://h/v.mp4" none).result =
      .error ("Failed to download video: " ++ "timeout")) ∧
    ("t.mp4" ∉ (download_video_from_url { tempName := "t.mp4", outcome := .failure true "timeout" }
        [] "http://h/v.mp4" none).fs) ∧
    ((download_video_from_url { tempName := "t.mp4", outcome := .success }
        [] "http://h/v.mp4" none).result = .ok "t.mp4") ∧
    ("t.mp4" ∈ (download_video_from_url { tempName := "t.mp4", outcome := .success }
        [] "http://h/v.mp4" none).fs) := by
  refine ⟨(download_video_once_cleanup { tempName := "t.mp4", outcome := .failure true "timeout" }
      [] "http://h/v.mp4").1, ?_, ?_, ?_, ?_⟩
  · exact (((download_video_once_cleanup { tempName := "t.mp4", outcome := .failure true "timeout" }
      [] "http://h/v.mp4").2.2 true "timeout" rfl)).1
  · exact (((download_video_once_cleanup { tempName := "t.mp4", outcome := .failure true "timeout" }
      [] "http://h/v.mp4").2.2 true "timeout" rfl)).2.1
  · exact ((download_video_once_cleanup { tempName := "t.mp4", outcome := .success }
      [] "http://h/v.mp4").2.1 rfl).1
  · exact ((download_video_once_cleanup { tempName := "t.mp4", outcome := .success }
      [] "http://h/v.mp4").2.1 rfl).2

/-- C5: in both drivers, a local-path input's file is never deleted (the
filesystem is returned unchanged, whatever inference does), while a
URL input's downloaded temporary file is deleted after processing — for
every inference outcome, including an exception — and the cleanup step
touches nothing else: the final filesystem is exactly the
post-download filesystem with only the temporary path unlinked. -/
theorem drivers_cleanup (env : DLEnv) (ienv : InferEnv) (tf : Bool)
    (fs : List String) (input : String) (st : ℚ) (et : Option ℚ) :
    (is_url input = false →
      (run_local env ienv fs input st et).2 = fs ∧
      (process_video_url env ienv tf fs input st et).2 = fs) ∧
    (is_url input = true → env.outcome = .success →
      (run_local env ienv fs input st et).2 =
        unlinkFile env.tempName (get_video_path_or_download env fs input).2 ∧
      (process_video_url env ienv tf fs input st et).2 =
        unlinkFile env.tempName (get_video_path_or_download env fs input).2 ∧
      env.tempName ∉ (run_local env ienv fs input st et).2 ∧
      env.tempName ∉ (process_video_url env ienv tf fs input st et).2) := by
  constructor
  · intro hurl
    by_cases hc : input ∈ fs
    · have hget : get_video_path_or_download env fs input = (.ok (input, false), fs) := by
        rw [get_video_path_or_download]
        simp [hurl, hc]
      constructor
      · rw [run_local, hget]
        simp
      · rw [process_video_url, hget]
        simp
    · have hget : get_video_path_or_download env fs input =
          (.error (.fileNotFound ("Video file not found: " ++ input)), fs) := by
        rw [get_video_path_or_download]
        simp [hurl, hc]
      constructor
      · rw [run_local, hget]
      · rw [process_video_url, hget]
  · intro hurl houtcome
    have hget : get_video_path_or_download env fs input =
        (.ok (env.tempName, true), createFile env.tempName (createFile env.tempName fs)) := by
      rw [get_video_path_or_download]
      simp [hurl, download_video_from_url, houtcome]
    have hmem : env.tempName ∈ createFile env.tempName (createFile env.tempName fs) :=
      mem_createFile.mpr (Or.inl rfl)
    refine ⟨?_, ?_, ?_, ?_⟩
    · rw [run_local, hget]
      simp [hmem]
    · rw [process_video_url, hget]
      simp [hmem]
    · rw [run_local, hget]
      simp [hmem, mem_unlinkFile]
    · rw [process_video_url, hget]
      simp [hmem, mem_unlinkFile]

/-- Witness for C5: a local file that persists, and an http URL whose
temp file is gone even though inference raised. -/
theorem drivers_cleanup_witness :
    (is_url "v.mp4" = false) ∧
    ((run_local { tempName := "t.mp4", outcome := .success }
        ⟨fun _ _ _ _ => .error "boom"⟩ ["v.mp4"] "v.mp4" 0 none).2 = ["v.mp4"] ∧
     (process_video_url { tempName := "t.mp4", outcome := .success }
        ⟨fun _ _ _ _ => .error "boom"⟩ true ["v.mp4"] "v.mp4" 0 none).2 = ["v.mp4"]) ∧
    (is_url "http://h/v.mp4" = true) ∧
    ({ tempName := "t.mp4", outcome := .success : DLEnv }.outcome = .success) ∧
    ("t.mp4" ∉ (run_local { tempName := "t.mp4", outcome := .success }
        ⟨fun _ _ _ _ => .error "boom"⟩ [] "http://h/v.mp4" 0 none).2 ∧
     "t.mp4" ∉ (process_video_url { tempName := "t.mp4", outcome := .success }
        ⟨fun _ _ _ _ => .error "boom"⟩ true [] "http://h/v.mp4" 0 none).2) := by
  refine ⟨by decide, ?_, by decide, rfl, ?_⟩
  · exact (drivers_cleanup { tempName := "t.mp4", outcome := .success }
      ⟨fun _ _ _ _ => .error "boom"⟩ true ["v.mp4"] "v.mp4" 0 none).1 (by decide)
  · have h := (drivers_cleanup { tempName := "t.mp4", outcome := .success }
      ⟨fun _ _ _ _ => .error "boom"⟩ true [] "http://h/v.mp4" 0 none).2 (by decide) rfl
    exact ⟨h.2.2.1, h.2.2.2⟩

/-- C7 counterexample: a concrete failing run of each CLI entry point in
which the exit code is nonzero but stderr is empty — the exception
message goes to stdout, not stderr. -/
theorem cli_stderr_counterexample :
    ((main_cli { tempName := "t.mp4", outcome := .success } ⟨fun _ _ _ _ => .error "boom"⟩
        true ["v.mp4"]
        { video_input := "v.mp4", start := 0, end_ := none, output := none, local_ := true }).exitCode = 1) ∧
    ((main_cli { tempName := "t.mp4", outcome := .success } ⟨fun _ _ _ _ => .error "boom"⟩
        true ["v.mp4"]
        { video_input := "v.mp4", start := 0, end_ := none, output := none, local_ := true }).stdoutLines =
      ["Error processing video: boom"]) ∧
    ((main_cli { tempName := "t.mp4", outcome := .success } ⟨fun _ _ _ _ => .error "boom"⟩
        true ["v.mp4"]
        { video_input := "v.mp4", start := 0, end_ := none, output := none, local_ := true }).stderrLines = []) ∧
    ((run_talknet_cli ⟨fun _ _ _ _ => .error "boom"⟩ ["v.mp4"]
        ["run_talknet.py", "v.mp4"]).exitCode = 1) ∧
    ((run_talknet_cli ⟨fun _ _ _ _ => .error "boom"⟩ ["v.mp4"]
        ["run_talknet.py", "v.mp4"]).stdoutLines = ["Error: boom"]) ∧
    ((run_talknet_cli ⟨fun _ _ _ _ => .error "boom"⟩ ["v.mp4"]
        ["run_talknet.py", "v.mp4"]).stderrLines = []) :=
  ⟨rfl, rfl, rfl, rfl, rfl, rfl⟩

/-- C7 (amended): for every run in which processing raises an exception,
each CLI entry point propagates the exception message to stdout (via
`print`) and terminates with the nonzero exit code 1; nothing is written
to stderr. -/
theorem cli_error_reporting (env : DLEnv) (ienv : InferEnv) (tf : Bool)
    (fs : List String) (args : MainArgs) (e : PyError) (ienv2 : InferEnv)
    (fs2 : List String) (prog vp : String) (rest : List String) (e2 : PyError) :
    ((is_url args.video_input || fs.contains args.video_input) = true →
      (if args.local_ then run_local env ienv fs args.video_input args.start args.end_
       else process_video_url env ienv tf fs args.video_input args.start args.end_).1 = .error e →
      (main_cli env ienv tf fs args).exitCode = 1 ∧
      ("Error processing video: " ++ e.msg) ∈ (main_cli env ienv tf fs args).stdoutLines ∧
      (main_cli env ienv tf fs args).stderrLines = []) ∧
    ((rtParseLoop rtInitState rest).crashed = false →
      run_talknet ienv2 fs2 vp (rtParseLoop rtInitState rest).start_time
        (rtParseLoop rtInitState rest).end_time (rtParseLoop rtInitState rest).return_viz
        (rtParseLoop rtInitState rest).output_json = .error e2 →
      (run_talknet_cli ienv2 fs2 (prog :: vp :: rest)).exitCode = 1 ∧
      ("Error: " ++ e2.msg) ∈ (run_talknet_cli ienv2 fs2 (prog :: vp :: rest)).stdoutLines ∧
      (run_talknet_cli ienv2 fs2 (prog :: vp :: rest)).stderrLines = []) := by
  constructor
  · intro hvalid herr
    have hcond : (!is_url args.video_input && !fs.contains args.video_input) = false := by
      rcases Bool.or_eq_true_iff.mp hvalid with h | h
      · simp [h]
      · simp [h, List.mem_of_elem_eq_true h]
    rw [main_cli]
    simp only [hcond, Bool.false_eq_true, if_false]
    rw [herr]
    refine ⟨rfl, ?_, rfl⟩
    simp
  · intro hcrash herr
    rw [run_talknet_cli]
    simp only [hcrash, Bool.false_eq_true, if_false]
    rw [herr]
    exact ⟨rfl, by simp, rfl⟩

/-- Witness for C7 (amended) at the concrete failing runs of both entry
points used in the counterexample. -/
theorem cli_error_reporting_witness :
    ((is_url "v.mp4" || (["v.mp4"] : List String).contains "v.mp4") = true) ∧
    ((if true then
        run_local { tempName := "t.mp4", outcome := .success }
          ⟨fun _ _ _ _ => .error "boom"⟩ ["v.mp4"] "v.mp4" 0 none
      else
        process_video_url { tempName := "t.mp4", outcome := .success }
          ⟨fun _ _ _ _ => .error "boom"⟩ true ["v.mp4"] "v.mp4" 0 none).1 =
      .error (.exception "boom")) ∧
    ((rtParseLoop rtInitState []).crashed = false) ∧
    (run_talknet ⟨fun _ _ _ _ => .error "boom"⟩ ["v.mp4"] "v.mp4"
      (rtParseLoop rtInitState []).start_time (rtParseLoop rtInitState []).end_time
      (rtParseLoop rtInitState []).return_viz (rtParseLoop rtInitState []).output_json =
      .error (.exception "boom")) ∧
    (((main_cli { tempName := "t.mp4", outcome := .success } ⟨fun _ _ _ _ => .error "boom"⟩
        true ["v.mp4"]
        { video_input := "v.mp4", start := 0, end_ := none, output := none, local_ := true }).exitCode = 1 ∧
      ("Error processing video: " ++ PyError.msg (.exception "boom")) ∈
        (main_cli { tempName := "t.mp4", outcome := .success } ⟨fun _ _ _ _ => .error "boom"⟩
          true ["v.mp4"]
          { video_input := "v.mp4", start := 0, end_ := none, output := none, local_ := true }).stdoutLines ∧
      (main_cli { tempName := "t.mp4", outcome := .success } ⟨fun _ _ _ _ => .error "boom"⟩
        true ["v.mp4"]
        { video_input := "v.mp4", start := 0, end_ := none, output := none, local_ := true }).stderrLines = []) ∧
     ((run_talknet_cli ⟨fun _ _ _ _ => .error "boom"⟩ ["v.mp4"]
        ("run_talknet.py" :: "v.mp4" :: [])).exitCode = 1 ∧
      ("Error: " ++ PyError.msg (.exception "boom")) ∈
        (run_talknet_cli ⟨fun _ _ _ _ => .error "boom"⟩ ["v.mp4"]
          ("run_talknet.py" :: "v.mp4" :: [])).stdoutLines ∧
      (run_talknet_cli ⟨fun _ _ _ _ => .error "boom"⟩ ["v.mp4"]
        ("run_talknet.py" :: "v.mp4" :: [])).stderrLines = [])) := by
  refine ⟨rfl, rfl, rfl, rfl, ?_, ?_⟩
  · exact (cli_error_reporting { tempName := "t.mp4", outcome := .success }
      ⟨fun _ _ _ _ => .error "boom"⟩ true ["v.mp4"]
      { video_input := "v.mp4", start := 0, end_ := none, output := none, local_ := true }
      (.exception "boom") ⟨fun _ _ _ _ => .error "boom"⟩ ["v.mp4"]
      "run_talknet.py" "v.mp4" [] (.exception "boom")).1 rfl rfl
  · exact (cli_error_reporting { tempName := "t.mp4", outcome := .success }
      ⟨fun _ _ _ _ => .error "boom"⟩ true ["v.mp4"]
      { video_input := "v.mp4", start := 0, end_ := none, output := none, local_ := true }
      (.exception "boom") ⟨fun _ _ _ _ => .error "boom"⟩ ["v.mp4"]
      "run_talknet.py" "v.mp4" [] (.exception "boom")).2 rfl rfl

/-- C8: `is_url` returns `True` exactly when the input starts with one of
the prefixes `http://`, `https://` or `ftp://`; in particular an
`ftp://` input is classified as a URL and routed to the downloader (on a
successful download it returns the temporary path with cleanup flag
`True`, and it is never treated as a local path, so it can never raise
`FileNotFoundError`). -/
theorem is_url_spec (s : String) (env : DLEnv) (fs : List String) :
    (is_url s = true ↔
      ∃ p, p ∈ (["http://", "https://", "ftp://"] : List String) ∧
        pyStartsWith s p = true) ∧
    (pyStartsWith s "ftp://" = true →
      is_url s = true ∧
      (env.outcome = .success →
        (get_video_path_or_download env fs s).1 = .ok (env.tempName, true)) ∧
      (∀ msg, (get_video_path_or_download env fs s).1 ≠
        .error (.fileNotFound msg))) := by
  constructor
  · constructor
    · intro h
      simp only [is_url, Bool.or_eq_true] at h
      rcases h with (h | h) | h
      · exact ⟨"http://", by simp, h⟩
      · exact ⟨"https://", by simp, h⟩
      · exact ⟨"ftp://", by simp, h⟩
    · rintro ⟨p, hp, hsw⟩
      simp only [List.mem_cons, List.mem_singleton] at hp
      rcases hp with rfl | rfl | (rfl | hp)
      · simp [is_url, hsw]
      · simp [is_url, hsw]
      · simp [is_url, hsw]
      · exact absurd hp (List.not_mem_nil p)
  · intro hftp
    have hurl : is_url s = true := by simp [is_url, hftp]
    refine ⟨hurl, ?_, ?_⟩
    · intro hout
      rw [get_video_path_or_download]
      simp [hurl, download_video_from_url, hout]
    · intro msg
      rw [get_video_path_or_download]
      simp only [hurl, if_true]
      rcases houtcome : env.outcome with _ | ⟨pw, m⟩ <;>
        simp [download_video_from_url, houtcome]

/-- Witness for C8: the ftp URL `ftp://h/v.mp4` with a successful
download from an empty filesystem. -/
theorem is_url_spec_witness :
    (pyStartsWith "ftp://h/v.mp4" "ftp://" = true) ∧
    (is_url "ftp://h/v.mp4" = true ∧
     ({ tempName := "t.mp4", outcome := .success : DLEnv }.outcome = .success →
       (get_video_path_or_download { tempName := "t.mp4", outcome := .success }
         [] "ftp://h/v.mp4").1 = .ok ("t.mp4", true)) ∧
     (∀ msg, (get_video_path_or_download { tempName := "t.mp4", outcome := .success }
         [] "ftp://h/v.mp4").1 ≠ .error (.fileNotFound msg))) :=
  ⟨by decide, (is_url_spec "ftp://h/v.mp4" { tempName := "t.mp4", outcome := .success } []).2
    (by decide)⟩

/-- C10: in `run_talknet.py`'s argument loop, a numeric positional
argument is assigned to `end_time` only when `start_time` is nonzero at
that point; consequently the positional time arguments `0` and `30`
yield `start_time = 30.0` and `end_time = None`. -/
theorem rt_time_argument_parsing (st : RTParseState) (v : ℚ) :
    ((rtAssignTime st v).end_time ≠ st.end_time → st.start_time ≠ 0) ∧
    (rtParseLoop rtInitState ["0", "30"]).start_time = 30 ∧
    (rtParseLoop rtInitState ["0", "30"]).end_time = none := by
  refine ⟨?_, ?_, ?_⟩
  · intro hne h0
    apply hne
    rw [rtAssignTime]
    simp [h0]
  · simp +decide [rtParseLoop, rtInitState, rtNumericArg, rtAssignTime, pyDigitGuard,
      pyFloat?, digitsVal, pyLower]
  · simp +decide [rtParseLoop, rtInitState, rtNumericArg, rtAssignTime, pyDigitGuard,
      pyFloat?, digitsVal, pyLower]

/-- A concrete parse state with a nonzero `start_time`, for the C10
witness. -/
def rtStateFive : RTParseState :=
  { start_time := 5, end_time := none, return_viz := false,
    output_json := false, output_file := none, crashed := false }

/-- Witness for C10: from `rtStateFive` (whose `start_time` is 5) the
numeric argument `7` is assigned to `end_time`, and the concrete `0 30`
run gives `start_time = 30`, `end_time = None`. -/
theorem rt_time_argument_parsing_witness :
    ((rtAssignTime rtStateFive 7).end_time ≠ rtStateFive.end_time) ∧
    (rtStateFive.start_time ≠ 0) ∧
    ((rtParseLoop rtInitState ["0", "30"]).start_time = 30) ∧
    ((rtParseLoop rtInitState ["0", "30"]).end_time = none) := by
  refine ⟨?_, ?_,
    (rt_time_argument_parsing rtInitState 0).2.1,
    (rt_time_argument_parsing rtInitState 0).2.2⟩
  · rw [rtAssignTime, rtStateFive]
    norm_num
    simp
  · exact (rt_time_argument_parsing rtStateFive 7).1 (by
      rw [rtAssignTime, rtStateFive]
      norm_num
      simp)
